import Mathlib

/-!
Verification development for the Time-Slot Availability and Booking
Concurrency Engine of the nail-art reservation backend (Google Apps
Script sources under src/rear-end-fire/modular plus shared utility
modules).

Modelling conventions used throughout this file:

* Instants are integers counting minutes since the Unix epoch (UTC).
  A JavaScript Date value is milliseconds since the epoch; every
  instant the engine builds or compares lies on a whole minute (all
  constructed strings end in ":00" seconds and all-day bounds are
  whole seconds on distinct minutes), so minutes lose nothing.
* Calendar dates (the YYYY-MM-DD strings of the code) are modelled as
  epoch day numbers (Int).  For equal-length zero-padded date strings,
  string comparison used by the code is equivalent to the numeric
  order of day numbers, and string equality to numeric equality.
* The JavaScript Date constructor applied to a string such as
  queryDateStr + "T" + HH + ":" + MM + ":00+08:00" succeeds exactly
  when HH/MM form a valid ECMA-262 date-time (hours 00-23 with any
  minutes 00-59, or 24:00 exactly); otherwise it yields an Invalid
  Date whose numeric value is NaN, and every < or > comparison against
  NaN is false.  This is modelled by an Option Int result, with the
  comparison helpers returning false on none.
-/

/-- Minutes in a day. -/
def minutesPerDay : Int := 1440

/-- Model of getTaipeiDateString (utils.gs): the Taipei-timezone
calendar date of an instant, as an epoch day number.  The code adds 8
hours to the UTC time and takes the ISO date part, i.e. the floor of
the shifted time over one day. -/
def getTaipeiDay (t : Int) : Int := (t + 480).fdiv minutesPerDay

/-- Model of the JavaScript Date constructor applied to
dayString + "T" + pad2 h + ":" + pad2 m + ":00+08:00".  ECMA-262
accepts hours 00-23 with minutes 00-59, and the special value 24:00;
anything else (e.g. "T24:30" or "T25:00") is an Invalid Date, modelled
as none.  On success the value is the instant day*1440 + h*60 + m
shifted back by the +08:00 offset. -/
def jsTaipeiDateTime (day : Int) (h m : Nat) : Option Int :=
  if (h ≤ 23 ∧ m ≤ 59) ∨ (h = 24 ∧ m = 0) then
    some (day * minutesPerDay + (h : Int) * 60 + (m : Int) - 480)
  else
    none

/-- Comparison a < b where a may be an Invalid Date (NaN compares
false). -/
def jsLt : Option Int → Int → Bool
  | some a, b => decide (a < b)
  | none, _ => false

/-- Comparison a > b where a may be an Invalid Date (NaN compares
false). -/
def jsGt : Option Int → Int → Bool
  | some a, b => decide (a > b)
  | none, _ => false

/-- A calendar event as seen by the engine after the compatible-event
adapter: a title and start/end instants (minutes since epoch).  The id,
description and location accessors are never consulted by the
availability logic and are omitted. -/
structure CalEvent where
  title : List Char
  start : Int
  stop : Int
deriving Repr, DecidableEq

/-- Value of CALENDAR_CONFIG.defaultDuration (config.gs): the slot
duration in hours. -/
def defaultDuration : Nat := 1

/-- Conflict test applied to one event inside
checkSingleTimeSlotAvailability (bookingService.gs lines 607-621): the
event is skipped unless its Taipei start date equals the query date,
and otherwise counts iff slotStart < eventEnd and slotEnd > eventStart,
where slotStart and slotEnd are parsed from constructed +08:00 strings
with end hour = hour + defaultDuration. -/
def conflictsWithSlot (day : Int) (h m : Nat) (e : CalEvent) : Bool :=
  decide (getTaipeiDay e.start = day) &&
    jsLt (jsTaipeiDateTime day h m) e.stop &&
    jsGt (jsTaipeiDateTime day (h + defaultDuration) m) e.start

/-- Availability record for one slot.  The code also carries a reason
string derived from conflictCount and stores formatted copies of the
conflicting events; the events themselves are kept here. -/
structure SlotStatus where
  available : Bool
  conflictCount : Int
  conflictingEvents : List CalEvent
deriving Repr, DecidableEq

/-- Model of checkSingleTimeSlotAvailability (bookingService.gs lines
593-641) on a well-formed HH:MM slot: count the events that pass
conflictsWithSlot; the slot is available iff the count is zero.  The
unused date parameter of the source is dropped; the query date string
is the day number. -/
def checkSingleTimeSlotAvailability (events : List CalEvent) (h m : Nat)
    (day : Int) : SlotStatus :=
  let cs := events.filter (conflictsWithSlot day h m)
  { available := decide ((cs.length : Int) = 0)
    conflictCount := (cs.length : Int)
    conflictingEvents := cs }

/-- Model of checkSingleTimeSlotAvailabilityFromEvents
(bookingService.gs lines 820-865), whose body is the same computation
as checkSingleTimeSlotAvailability applied to the pre-bucketed
booking events of one day. -/
def checkSingleTimeSlotAvailabilityFromEvents (events : List CalEvent)
    (h m : Nat) (day : Int) : SlotStatus :=
  checkSingleTimeSlotAvailability events h m day

/-- Slot start instant used in statements about the overlap rule. -/
def slotStartMin (day : Int) (h m : Nat) : Int :=
  day * minutesPerDay + (h : Int) * 60 + (m : Int) - 480

/-!
Time-Slot Extractor (extractTimeSlotsFromTitle, bookingService.gs
lines 435-496).  The six global regex patterns are modelled as
scanners over the character list of the title.  Each scanner mirrors
the JavaScript exec loop: it looks for the leftmost match at or after
the current position, greedy on the 1-2 digit hour group, and resumes
scanning right after the end of a match.  Every match consumes at
least one character, so a fuel equal to the title length makes the
scan total without changing its result.
-/

/-- Numeric value of a decimal digit character. -/
def dv (c : Char) : Nat := c.toNat - 48

/-- Whitespace recognised by the ECMA-262 regex class backslash-s:
tab, line feed, vertical tab, form feed, carriage return, space,
no-break space (U+00A0), U+1680, U+2000 through U+200A, the line and
paragraph separators U+2028 and U+2029, U+202F, U+205F, the
ideographic space U+3000 and the byte-order mark U+FEFF. -/
def isJsSpace (c : Char) : Bool :=
  c = ' ' || c = '\t' || c = '\n' || c = '\r' ||
    c.toNat = 11 || c.toNat = 12 ||
    c.toNat = 160 || c.toNat = 5760 ||
    (decide (8192 ≤ c.toNat) && decide (c.toNat ≤ 8202)) ||
    c.toNat = 8232 || c.toNat = 8233 ||
    c.toNat = 8239 || c.toNat = 8287 ||
    c.toNat = 12288 || c.toNat = 65279

/-- Greedy skip of whitespace. -/
def skipSpaces : List Char → List Char
  | c :: rest => if isJsSpace c then skipSpaces rest else c :: rest
  | [] => []

/-- One-digit-hour alternative of the HH:MM pattern. -/
def tryHHMM1 : List Char → Option ((Nat × Nat) × List Char)
  | a :: b :: x :: y :: rest =>
    if a.isDigit && b = ':' && x.isDigit && y.isDigit then
      some ((dv a, dv x * 10 + dv y), rest)
    else none
  | _ => none

/-- Match of the pattern digit{1,2} colon digit{2} at the head of the
list, two-digit hour preferred, returning the parsed pair and the
suffix after the match. -/
def tryHHMM : List Char → Option ((Nat × Nat) × List Char)
  | a :: b :: c :: x :: y :: rest =>
    if a.isDigit && b.isDigit && c = ':' && x.isDigit && y.isDigit then
      some ((dv a * 10 + dv b, dv x * 10 + dv y), rest)
    else tryHHMM1 (a :: b :: c :: x :: y :: rest)
  | cs => tryHHMM1 cs

/-- Optional two-digit minute group: consumed only when two digits are
present, otherwise the minute defaults to 0 (parseInt of a missing
group is NaN, and NaN or 0 is 0). -/
def optMin2 : List Char → Nat × List Char
  | x :: y :: rest =>
    if x.isDigit && y.isDigit then (dv x * 10 + dv y, rest)
    else (0, x :: y :: rest)
  | cs => (0, cs)

/-- Match of the pattern digit{1,2} mark (digit{2})? at the head of
the list, used for the Chinese hour markers. -/
def tryMark (mark : Char) : List Char → Option ((Nat × Nat) × List Char)
  | a :: b :: rest =>
    if a.isDigit && b.isDigit then
      match rest with
      | c :: rest2 =>
        if c = mark then
          let p := optMin2 rest2
          some ((dv a * 10 + dv b, p.1), p.2)
        else none
      | [] => none
    else if a.isDigit && b = mark then
      let p := optMin2 rest
      some ((dv a, p.1), p.2)
    else none
  | _ => none

/-- Optional colon followed by an optional two-digit minute group. -/
def optColonMin : List Char → Nat × List Char
  | ':' :: rest => optMin2 rest
  | cs => optMin2 cs

/-- Hour and optional minute part of the period-prefixed patterns:
digit{1,2} colon? (digit{2})?. -/
def afterPrefixDigits : List Char → Option ((Nat × Nat) × List Char)
  | a :: b :: rest =>
    if a.isDigit && b.isDigit then
      let p := optColonMin rest
      some ((dv a * 10 + dv b, p.1), p.2)
    else if a.isDigit then
      let p := optColonMin (b :: rest)
      some ((dv a, p.1), p.2)
    else none
  | [a] => if a.isDigit then some ((dv a, 0), []) else none
  | [] => none

/-- Match of a two-character period prefix followed by whitespace and
an hour with optional minutes. -/
def tryPrefixed (m1 m2 : Char) : List Char → Option ((Nat × Nat) × List Char)
  | a :: b :: rest =>
    if a = m1 && b = m2 then afterPrefixDigits (skipSpaces rest) else none
  | _ => none

/-- Exec loop of one global pattern: find matches left to right,
resuming after each match.  The fuel argument (instantiated with the
title length) bounds the number of positions visited; since each step
either advances one character or consumes a whole nonempty match, the
bound is never hit early. -/
def scanPattern (tm : List Char → Option ((Nat × Nat) × List Char)) :
    Nat → List Char → List (Nat × Nat)
  | 0, _ => []
  | _, [] => []
  | fuel + 1, c :: rest =>
    match tm (c :: rest) with
    | some (p, rest2) => p :: scanPattern tm fuel rest2
    | none => scanPattern tm fuel rest

/-- Afternoon marker string of the source. -/
def pmMarker : List Char := ['下', '午']

/-- Morning marker string of the source. -/
def amMarker : List Char := ['上', '午']

/-- Evening marker string of the source. -/
def eveMarker : List Char := ['晚', '上']

/-- All raw (hour, minute) matches of the six timePatterns of
extractTimeSlotsFromTitle, in pattern order. -/
def rawTimeMatches (title : List Char) : List (Nat × Nat) :=
  let n := title.length
  scanPattern tryHHMM n title ++
    scanPattern (tryMark '點') n title ++
    scanPattern (tryMark '時') n title ++
    scanPattern (tryPrefixed '上' '午') n title ++
    scanPattern (tryPrefixed '下' '午') n title ++
    scanPattern (tryPrefixed '晚' '上') n title

/-- Prefix test for character lists. -/
def hasPrefixCL : List Char → List Char → Bool
  | _, [] => true
  | [], _ :: _ => false
  | c :: cs, p :: ps => c = p && hasPrefixCL cs ps

/-- Substring test, modelling String.prototype.includes. -/
def containsSub (cs pat : List Char) : Bool :=
  match cs with
  | [] => pat.isEmpty
  | _ :: rest => hasPrefixCL cs pat || containsSub rest pat

/-- The 12-hour to 24-hour correction of extractTimeSlotsFromTitle
(bookingService.gs lines 456-460): an hour below 12 gains 12 when the
title contains the afternoon marker; otherwise hour 12 becomes 0 when
the title contains the morning marker.  The evening marker plays no
role here. -/
def correctHour (title : List Char) (h : Nat) : Nat :=
  if containsSub title pmMarker && decide (h < 12) then h + 12
  else if containsSub title amMarker && decide (h = 12) then 0
  else h

/-- Set.add on the list of found times: the code dedupes the formatted
HH:MM strings, and the zero-padded formatting is injective on (hour,
minute) pairs, so inserting the pair itself is equivalent. -/
def insertTime (l : List (Nat × Nat)) (t : Nat × Nat) : List (Nat × Nat) :=
  if t ∈ l then l else l ++ [t]

/-- Corrected, deduplicated times found in a title, in insertion
order. -/
def foundTimesOf (title : List Char) : List (Nat × Nat) :=
  (rawTimeMatches title).foldl
    (fun acc p => insertTime acc (correctHour title p.1, p.2)) []

/-- Day-period label of a slot. The source uses the strings 上午, 下午
and 晚上. -/
inductive Period where
  | morning
  | afternoon
  | evening
deriving Repr, DecidableEq

/-- Period classification of extractTimeSlotsFromTitle (lines
476-479): 06-11 morning, 12-17 afternoon, otherwise evening. -/
def classifyPeriod (h : Nat) : Period :=
  if 6 ≤ h ∧ h < 12 then Period.morning
  else if 12 ≤ h ∧ h < 18 then Period.afternoon
  else Period.evening

/-- A parsed time slot.  The label, available and source fields of the
source object are constants derived from these two and are omitted. -/
structure TimeSlot where
  time : Nat × Nat
  period : Period
deriving Repr, DecidableEq

/-- Hour of an instant in the script timezone (Asia/Taipei), as read
by Date.prototype.getHours. -/
def taipeiHourOf (t : Int) : Nat := ((t + 480).emod minutesPerDay).toNat / 60

/-- Minute of an instant in the script timezone (Asia/Taipei), as
read by Date.prototype.getMinutes. -/
def taipeiMinOf (t : Int) : Nat := ((t + 480).emod minutesPerDay).toNat % 60

/-- Model of extractTimeSlotsFromTitle (bookingService.gs lines
435-496): collect the corrected pattern matches; when none are found,
fall back to the event start time when one is given; classify each
time into a day period. -/
def extractTimeSlotsFromTitle (title : List Char) (eventStart : Option Int) :
    List TimeSlot :=
  let found := foundTimesOf title
  let found :=
    if found.isEmpty then
      match eventStart with
      | some t => [(taipeiHourOf t, taipeiMinOf t)]
      | none => []
    else found
  found.map fun p => { time := p, period := classifyPeriod p.1 }

/-- Title of Scenario A. -/
def titleScenarioA : List Char := ("下午2:00").data

/-- A title with an evening marker. -/
def titleEvening : List Char := ("晚上8:00").data

/-- A title with no time pattern. -/
def titleNoTime : List Char := ("美甲").data

/-- A title where the afternoon marker and the hour are separated by
the ideographic space U+3000 (matched by the backslash-s of the
source pattern). -/
def titleIdeographic : List Char := ['下', '午', Char.ofNat 12288, '2']

/-!
Calendar Event Source pagination (executePaginatedQuery,
calendarService.gs lines 96-140).  A response stream maps the ordinal
of a fetch (1-based page count) to either a page (items plus an
optional next-page token, an opaque Nat here) or none, modelling a
page-fetch error thrown by the upstream API.
-/

/-- One page of an upstream list response. -/
structure CalendarPage where
  items : List CalEvent
  nextPageToken : Option Nat
deriving Repr, DecidableEq

/-- Body of the do/while loop of executePaginatedQuery: increment the
page count, fetch; on error break with the accumulated events;
otherwise append the page items, stop after the fetch when the count
exceeds 20 or when no next-page token is present, else continue.  The
second component of the result is the number of fetches performed. -/
def paginateLoop (stream : Nat → Option CalendarPage) (pageCount : Nat)
    (acc : List CalEvent) : List CalEvent × Nat :=
  match stream (pageCount + 1) with
  | none => (acc, pageCount + 1)
  | some page =>
    let acc2 := acc ++ page.items
    if pageCount + 1 > 20 then (acc2, pageCount + 1)
    else
      match page.nextPageToken with
      | none => (acc2, pageCount + 1)
      | some _ => paginateLoop stream (pageCount + 1) acc2
termination_by 21 - pageCount
decreasing_by omega

/-- Model of executePaginatedQuery: run the loop from page count 0
with no accumulated events. -/
def executePaginatedQuery (stream : Nat → Option CalendarPage) :
    List CalEvent × Nat :=
  paginateLoop stream 0 []

/-!
Calendar dates.  The YYYY-MM-DD strings of the API are parsed to epoch
day numbers with the standard civil-calendar algorithm; the ECMA-262
parser accepts months 01-12 and days 01-31 and normalises a day beyond
the month length linearly, exactly as the algorithm below does.
-/

/-- Shape test for the regex match of a YYYY-MM-DD date string. -/
def isDateFormatCL : List Char → Bool
  | [a, b, c, d, e, f, g, h, i, j] =>
    a.isDigit && b.isDigit && c.isDigit && d.isDigit && e = '-' &&
      f.isDigit && g.isDigit && h = '-' && i.isDigit && j.isDigit
  | _ => false

/-- Digits of a YYYY-MM-DD string as (year, month, day). -/
def parseYMD : List Char → Option (Nat × Nat × Nat)
  | [a, b, c, d, '-', f, g, '-', i, j] =>
    if a.isDigit && b.isDigit && c.isDigit && d.isDigit &&
        f.isDigit && g.isDigit && i.isDigit && j.isDigit then
      some (dv a * 1000 + dv b * 100 + dv c * 10 + dv d,
        dv f * 10 + dv g, dv i * 10 + dv j)
    else none
  | _ => none

/-- Epoch day number of a civil date (days since 1970-01-01, standard
era-based algorithm, linear in the day argument). -/
def daysFromCivil (y : Int) (m d : Nat) : Int :=
  let y2 : Int := if m ≤ 2 then y - 1 else y
  let era : Int := y2.fdiv 400
  let yoe : Int := y2 - era * 400
  let mp : Int := if 3 ≤ m then (m : Int) - 3 else (m : Int) + 9
  let doy : Int := (153 * mp + 2).fdiv 5 + (d : Int) - 1
  let doe : Int := yoe * 365 + yoe.fdiv 4 - yoe.fdiv 100 + doy
  era * 146097 + doe - 719468

/-- Model of the JavaScript Date constructor on a bare YYYY-MM-DD
string (UTC midnight of that date, as an epoch day): Invalid Date when
the month is outside 01-12 or the day outside 01-31. -/
def jsParseDateUTC (s : List Char) : Option Int :=
  match parseYMD s with
  | some (y, mo, da) =>
    if 1 ≤ mo && mo ≤ 12 && 1 ≤ da && da ≤ 31 then
      some (daysFromCivil (y : Int) mo da)
    else none
  | none => none

/-- Milliseconds in a day, as used by the range check. -/
def msPerDay : Int := 86400000

/-- Math.ceil of an integer division with positive divisor. -/
def jsCeilDiv (a b : Int) : Int := (a + b - 1).fdiv b

/-- The maxDays constant of handleBatchCheckTimeSlotAvailability. -/
def maxDays : Int := 62

/-- Business hours start (CALENDAR_CONFIG.businessHours.start, 08:00),
in minutes from midnight. -/
def businessStartMin : Int := 8 * 60

/-- Business hours end (CALENDAR_CONFIG.businessHours.end, 22:00), in
minutes from midnight. -/
def businessEndMin : Int := 22 * 60

/-- Model of getOptimizedQueryRangeBatch (utils.gs lines 289-326): one
window for the whole range, from the start date at the business start
hour to the end date at the business end hour, script timezone
Asia/Taipei (setHours on the Taipei-midnight and end-of-day dates). -/
def getOptimizedQueryRangeBatch (ds de : Int) : Int × Int :=
  (ds * minutesPerDay + businessStartMin - 480,
    de * minutesPerDay + businessEndMin - 480)

/-- Append an event to the bucket of a key in an association list,
creating the bucket at the end on first use (JS object insertion). -/
def pushBucket (m : List (Int × List CalEvent)) (k : Int) (e : CalEvent) :
    List (Int × List CalEvent) :=
  match m with
  | [] => [(k, [e])]
  | (k1, l1) :: rest =>
    if k1 = k then (k1, l1 ++ [e]) :: rest
    else (k1, l1) :: pushBucket rest k e

/-- One step of the grouping loops of handleBatchCheckTimeSlot-
Availability (lines 693-709): an event is bucketed under its Taipei
start date when that date lies in the requested range. -/
def bucketStep (lo hi : Int) (m : List (Int × List CalEvent))
    (ev : CalEvent) : List (Int × List CalEvent) :=
  if lo ≤ getTaipeiDay ev.start ∧ getTaipeiDay ev.start ≤ hi then
    pushBucket m (getTaipeiDay ev.start) ev
  else m

/-- Events grouped by Taipei date, restricted to the range. -/
def bucketByDate (events : List CalEvent) (lo hi : Int) :
    List (Int × List CalEvent) :=
  events.foldl (bucketStep lo hi) []

/-- Bucket lookup with the empty list for an absent key (the code
reads timeSlotsByDate[dateStr] or []). -/
def lookupBucket : List (Int × List CalEvent) → Int → List CalEvent
  | [], _ => []
  | (k1, l1) :: rest, d => if k1 = d then l1 else lookupBucket rest d

/-- Dedup step of extractTimeSlotsFromEvents: a slot is appended
unless one with the same time string is already present. -/
def insertSlot (l : List TimeSlot) (s : TimeSlot) : List TimeSlot :=
  if l.any (fun x => x.time = s.time) then l else l ++ [s]

/-- Comparator order of the sort in extractTimeSlotsFromEvents:
localeCompare on zero-padded HH:MM strings, i.e. lexicographic order
on (hour, minute). -/
def slotLtBool (a b : TimeSlot) : Bool :=
  decide (a.time.1 < b.time.1 ∨ (a.time.1 = b.time.1 ∧ a.time.2 < b.time.2))

/-- Insertion into a sorted slot list. -/
def insertSortedSlot (s : TimeSlot) : List TimeSlot → List TimeSlot
  | [] => [s]
  | x :: xs => if slotLtBool x s then x :: insertSortedSlot s xs else s :: x :: xs

/-- Ascending sort by time.  The per-day slot lists are deduplicated
by time before sorting, so any sort by the comparator produces the
array-sort result. -/
def sortSlots (l : List TimeSlot) : List TimeSlot :=
  l.foldr insertSortedSlot []

/-- Model of extractTimeSlotsFromEvents (bookingService.gs lines
765-793): extract slots from each event of the day (skipping events of
other Taipei dates), dedup by time with first occurrence winning, and
sort ascending by time. -/
def extractTimeSlotsFromEvents (events : List CalEvent) (day : Int) :
    List TimeSlot :=
  sortSlots (events.foldl
    (fun acc e =>
      if getTaipeiDay e.start = day then
        (extractTimeSlotsFromTitle e.title (some e.start)).foldl insertSlot acc
      else acc)
    [])

/-- Model of checkTimeSlotsAvailabilityFromEvents (bookingService.gs
lines 798-815): per-slot availability against the booking
events. -/
def checkTimeSlotsAvailabilityFromEvents (bookingEvents : List CalEvent)
    (slots : List (Nat × Nat)) (day : Int) :
    List ((Nat × Nat) × SlotStatus) :=
  slots.map fun t =>
    (t, checkSingleTimeSlotAvailabilityFromEvents bookingEvents t.1 t.2 day)

/-- Result for one date of the batch query: an empty sub-map when the
date has no extracted slots, otherwise the per-slot availability. -/
inductive DayOutcome where
  | empty
  | availability (avail : List ((Nat × Nat) × SlotStatus))
deriving Repr, DecidableEq

/-- Outcome of handleBatchCheckTimeSlotAvailability.  The error
constructors correspond to the distinct thrown messages (format,
invalid date, order, range) and to the unconfigured-calendar early
return; ok carries the per-date data (the totalDays/totalSlots
counters of the response are derived from it and omitted). -/
inductive BatchResult where
  | formatError
  | invalidDate
  | orderError
  | rangeTooLarge
  | calendarNotConfigured
  | ok (data : List (Int × DayOutcome))
deriving Repr, DecidableEq

/-- The two calendars consulted by the batch query. -/
inductive CalRole where
  | timeSlots
  | booking
deriving Repr, DecidableEq

/-- One upstream Calendar Event Source call: which calendar and which
time window. -/
structure FetchCall where
  role : CalRole
  winStart : Int
  winEnd : Int
deriving Repr, DecidableEq

/-- Upstream state seen by one batch query: whether both calendar ids
are configured, and the events each calendar returns for the queried
window. -/
structure BatchEnv where
  calendarsConfigured : Bool
  tsEvents : List CalEvent
  bkEvents : List CalEvent

/-- Model of handleBatchCheckTimeSlotAvailability (bookingService.gs
lines 648-760): validate formats, parse, check order and the 62-day
cap, then fetch each calendar once over the whole business-hours
window, bucket both event lists by Taipei date, and assemble per-date
results.  The second component records the upstream fetch calls in
order. -/
def handleBatchCheckTimeSlotAvailability (env : BatchEnv)
    (s e : List Char) : BatchResult × List FetchCall :=
  if isDateFormatCL s && isDateFormatCL e then
    match jsParseDateUTC s, jsParseDateUTC e with
    | some ds, some de =>
      if ds > de then (BatchResult.orderError, [])
      else if jsCeilDiv ((de - ds) * msPerDay) msPerDay > maxDays then
        (BatchResult.rangeTooLarge, [])
      else if env.calendarsConfigured then
        let w := getOptimizedQueryRangeBatch ds de
        let calls := [⟨CalRole.timeSlots, w.1, w.2⟩, ⟨CalRole.booking, w.1, w.2⟩]
        let tsB := bucketByDate env.tsEvents ds de
        let bkB := bucketByDate env.bkEvents ds de
        let days := (List.range ((de - ds).toNat + 1)).map (fun i => ds + (i : Int))
        let data := days.map (fun d =>
          let slots := extractTimeSlotsFromEvents (lookupBucket tsB d) d
          if slots.isEmpty then (d, DayOutcome.empty)
          else (d, DayOutcome.availability
            (checkTimeSlotsAvailabilityFromEvents (lookupBucket bkB d)
              (slots.map (fun x => x.time)) d)))
        (BatchResult.ok data, calls)
      else (BatchResult.calendarNotConfigured, [])
    | _, _ => (BatchResult.invalidDate, [])
  else (BatchResult.formatError, [])

/-- Date string 2025-07-01 (epoch day 20270). -/
def julyFirst : List Char := ("2025-07-01").data

/-- Date string 2025-07-03 (epoch day 20272). -/
def julyThird : List Char := ("2025-07-03").data

/-- Date string 2025-09-01 (epoch day 20332). -/
def septFirst : List Char := ("2025-09-01").data

/-- Date string 2025-09-03 (epoch day 20334). -/
def septThird : List Char := ("2025-09-03").data

/-- A batch environment with configured calendars and no events. -/
def batchEnvEmpty : BatchEnv :=
  { calendarsConfigured := true, tsEvents := [], bkEvents := [] }

/-- A batch environment with one time-slot event and one booking
event, both on Taipei day 20271 (2025-07-02). -/
def batchEnvOne : BatchEnv :=
  { calendarsConfigured := true
    tsEvents := [⟨titleScenarioA, 29190360, 29190420⟩]
    bkEvents := [⟨titleNoTime, 29190600, 29190660⟩] }

/-!
Booking Commit Protocol (handleSaveBooking and
verifyBackendTimeSlotAvailability, bookingService.gs lines 15-295).
The external effects are modelled by an environment (lock acquisition
outcome, calendar configuration, outcome of the booking-calendar event
fetch) and an action trace recording lock, fetch and append steps in
program order.  The cache invalidations, customer-counter update,
calendar-event creation and notifications of the success path (lines
77-208) touch no booking row and are not traced.
-/

/-- Shape test for the time regex of SYSTEM_CONFIG.TIME_FORMAT_REGEX:
one digit, or 0/1 plus a digit, or 2 plus 0-3, then colon and minutes
00-59. -/
def isTimeFormatCL : List Char → Bool
  | [h1, ':', m1, m2] =>
    h1.isDigit && (decide ('0' ≤ m1) && decide (m1 ≤ '5')) && m2.isDigit
  | [h1, h2, ':', m1, m2] =>
    ((h1 = '0' || h1 = '1') && h2.isDigit ||
      h1 = '2' && (decide ('0' ≤ h2) && decide (h2 ≤ '3'))) &&
      (decide ('0' ≤ m1) && decide (m1 ≤ '5')) && m2.isDigit
  | _ => false

/-- Test for the additional /[TZ]/i rejection applied to the booking
date. -/
def hasTZChar (s : List Char) : Bool :=
  s.any fun c => c = 'T' || c = 'Z' || c = 't' || c = 'z'

/-- The required fields of a booking submission.  Optional fields
(services, removal, quantity, remarks, LINE user id) never influence
the validation or slot-check flow and are omitted. -/
structure BookingInput where
  customerName : List Char
  phone : List Char
  date : List Char
  time : List Char
deriving Repr, DecidableEq

/-- The distinct validation failures thrown by handleSaveBooking lines
39-55, in check order. -/
inductive ValidationError where
  | missingCustomerName
  | missingPhone
  | missingDate
  | missingTime
  | badDateFormat
  | badTimeFormat
deriving Repr, DecidableEq

/-- Validation steps of handleSaveBooking (lines 39-55): required
fields in order (a missing field is an empty string, the falsy case),
then the date format (regex plus the T/Z rejection), then the time
format. -/
def validateBooking (b : BookingInput) : Option ValidationError :=
  if b.customerName.isEmpty then some ValidationError.missingCustomerName
  else if b.phone.isEmpty then some ValidationError.missingPhone
  else if b.date.isEmpty then some ValidationError.missingDate
  else if b.time.isEmpty then some ValidationError.missingTime
  else if !isDateFormatCL b.date || hasTZChar b.date then
    some ValidationError.badDateFormat
  else if !isTimeFormatCL b.time then some ValidationError.badTimeFormat
  else none

/-- Hour and minute of a validated HH:MM string
(timeSlot.split(':').map(Number)); only applied after the time format
check. -/
def parseTimeHM : List Char → Nat × Nat
  | [h1, ':', m1, m2] => (dv h1, dv m1 * 10 + dv m2)
  | [h1, h2, ':', m1, m2] => (dv h1 * 10 + dv h2, dv m1 * 10 + dv m2)
  | _ => (0, 0)

/-- Slot check against an optional query date.  When the query date
string is not a real calendar date (none), the constructed slot
instants are NaN and no event Taipei date string can equal the
query string, so the scan of checkSingleTimeSlotAvailability counts
nothing and reports the slot available. -/
def checkSingleForQueryDate (events : List CalEvent) (t : Nat × Nat) :
    Option Int → SlotStatus
  | some day => checkSingleTimeSlotAvailability events t.1 t.2 day
  | none => { available := true, conflictCount := 0, conflictingEvents := [] }

/-- Model of checkTimeSlotsAvailability (bookingService.gs lines
567-588): fetch the booking-calendar events and check each requested
slot; when the fetch (or anything in the try block) throws, every slot
gets the fail-closed record with conflictCount -1. -/
def checkTimeSlotsAvailability (fetch : Except Unit (List CalEvent))
    (slots : List (Nat × Nat)) (day? : Option Int) :
    List ((Nat × Nat) × SlotStatus) :=
  match fetch with
  | Except.ok events =>
    slots.map fun t => (t, checkSingleForQueryDate events t day?)
  | Except.error _ =>
    slots.map fun t =>
      (t, { available := false, conflictCount := -1, conflictingEvents := [] })

/-- Error codes of verifyBackendTimeSlotAvailability.  checkFailed is
the catch-all default of the source; the pure model never throws, so
it is never produced here. -/
inductive VerifyCode where
  | missingSlotParams
  | calendarNotConfigured
  | slotStatusMissing
  | timeSlotConflict
  | checkFailed
deriving Repr, DecidableEq

/-- Result of the backend re-validation (message strings omitted). -/
structure VerifyResult where
  available : Bool
  errorCode : Option VerifyCode
  slotStatus : Option SlotStatus
deriving Repr, DecidableEq

/-- Association lookup of a slot status
(availabilityMap[timeStr]). -/
def lookupSlot : List ((Nat × Nat) × SlotStatus) → (Nat × Nat) →
    Option SlotStatus
  | [], _ => none
  | (k, st) :: rest, t => if k = t then some st else lookupSlot rest t

/-- Model of verifyBackendTimeSlotAvailability (bookingService.gs
lines 246-295): reject when the date/time parameters are absent or the
booking calendar is unconfigured, otherwise re-run the single-slot
availability check on freshly fetched events and report its
outcome. -/
def verifyBackendTimeSlotAvailability (calCfg : Bool)
    (fetch : Except Unit (List CalEvent)) (hasParams : Bool)
    (day? : Option Int) (t : Nat × Nat) : VerifyResult :=
  if !hasParams then
    { available := false, errorCode := some VerifyCode.missingSlotParams
      slotStatus := none }
  else if !calCfg then
    { available := false, errorCode := some VerifyCode.calendarNotConfigured
      slotStatus := none }
  else
    let availabilityMap := checkTimeSlotsAvailability fetch [t] day?
    match lookupSlot availabilityMap t with
    | none =>
      { available := false, errorCode := some VerifyCode.slotStatusMissing
        slotStatus := none }
    | some st =>
      { available := st.available
        errorCode := if st.available then none
          else some VerifyCode.timeSlotConflict
        slotStatus := some st }

/-- Observable steps of one handleSaveBooking run, in program
order. -/
inductive SaveAction where
  | acquireLock
  | fetchBookingEvents
  | appendRow
  | releaseLock
deriving Repr, DecidableEq

/-- Outcome value of handleSaveBooking: the LOCK_TIMEOUT early return,
a thrown validation error (rethrown to the dispatcher by the catch at
line 230), the slot-unavailable failure object carrying the error code
and conflict details, or the success object. -/
inductive SaveResult where
  | lockTimeout
  | validationThrown (err : ValidationError)
  | slotUnavailable (code : Option VerifyCode) (details : Option SlotStatus)
  | saved
deriving Repr, DecidableEq

/-- External circumstances of one handleSaveBooking run: whether
waitLock succeeds within its 30s bound, whether the booking calendar
id is configured, and what the booking-calendar fetch returns. -/
structure SaveEnv where
  lockOk : Bool
  calendarConfigured : Bool
  fetch : Except Unit (List CalEvent)

/-- Result, final booking store and action trace of one
handleSaveBooking run. -/
structure SaveOutcome where
  result : SaveResult
  store : List BookingInput
  trace : List SaveAction
deriving Repr, DecidableEq

/-- Model of handleSaveBooking (bookingService.gs lines 15-236):
acquire the document lock (returning LOCK_TIMEOUT without releasing
when the bounded wait fails), validate the booking, re-check the slot
on the backend, and only then append the row; the finally block
releases the lock on every path that entered the try. -/
def handleSaveBooking (env : SaveEnv) (store : List BookingInput)
    (b : BookingInput) : SaveOutcome :=
  if !env.lockOk then
    { result := SaveResult.lockTimeout, store := store
      trace := [SaveAction.acquireLock] }
  else
    match validateBooking b with
    | some err =>
      { result := SaveResult.validationThrown err, store := store
        trace := [SaveAction.acquireLock, SaveAction.releaseLock] }
    | none =>
      let check := verifyBackendTimeSlotAvailability env.calendarConfigured
        env.fetch true (jsParseDateUTC b.date) (parseTimeHM b.time)
      let fetchTrace := if env.calendarConfigured
        then [SaveAction.fetchBookingEvents] else []
      if !check.available then
        { result := SaveResult.slotUnavailable check.errorCode check.slotStatus
          store := store
          trace := [SaveAction.acquireLock] ++ fetchTrace ++
            [SaveAction.releaseLock] }
      else
        { result := SaveResult.saved
          store := store ++ [b]
          trace := [SaveAction.acquireLock] ++ fetchTrace ++
            [SaveAction.appendRow, SaveAction.releaseLock] }

/-- Date string 2025-07-15 (epoch day 20284). -/
def julyFifteenth : List Char := ("2025-07-15").data

/-- Time string 14:00. -/
def time1400 : List Char := ("14:00").data

/-- A complete booking submission for 2025-07-15 14:00. -/
def bookingValid : BookingInput :=
  { customerName := ("王小姐").data
    phone := ("0912345678").data
    date := julyFifteenth
    time := time1400 }

/-- A booking submission with the phone field missing. -/
def bookingMissingPhone : BookingInput :=
  { customerName := ("王小姐").data
    phone := []
    date := julyFifteenth
    time := time1400 }

/-- Environment where the lock is granted, the calendar is configured
and the booking calendar returns no events. -/
def saveEnvFree : SaveEnv :=
  { lockOk := true, calendarConfigured := true, fetch := Except.ok [] }

/-- Environment where the booking calendar already holds an event on
2025-07-15 from 14:00 to 15:00 Taipei. -/
def saveEnvBusy : SaveEnv :=
  { lockOk := true, calendarConfigured := true
    fetch := Except.ok [⟨[], 29209320, 29209380⟩] }

theorem jsTaipeiDateTime_valid (day : Int) (h m : Nat)
    (hh : h ≤ 23) (hm : m ≤ 59) :
    jsTaipeiDateTime day h m = some (slotStartMin day h m) := by
  unfold jsTaipeiDateTime slotStartMin
  rw [if_pos (Or.inl ⟨hh, hm⟩)]

theorem jsTaipeiDateTime_end (day : Int) (h m : Nat)
    (hh : h ≤ 23) (hm : m ≤ 59) (hv : h < 23 ∨ m = 0) :
    jsTaipeiDateTime day (h + defaultDuration) m
      = some (slotStartMin day h m + 60) := by
  unfold jsTaipeiDateTime slotStartMin defaultDuration
  rcases hv with hv | hv
  · rw [if_pos (Or.inl ⟨by omega, hm⟩)]
    push_cast
    ring_nf
  · rcases Nat.lt_or_ge h 23 with hlt | hge
    · rw [if_pos (Or.inl ⟨by omega, hm⟩)]
      push_cast
      ring_nf
    · have h23 : h = 23 := by omega
      subst h23 hv
      rw [if_pos (Or.inr ⟨rfl, rfl⟩)]
      push_cast
      ring_nf

/-- C1: for a slot with a well-formed HH:MM whose end hour stays a
valid time-of-day (hour below 23, or minute 00 so that hour 24 parses
as midnight), an event whose Taipei start date equals the query date
is counted as a conflict iff slotStart < eventEnd and
slotStart + 60 > eventStart; events touching only a boundary are never
counted; and the slot is available iff its conflict count is zero. -/
theorem checkSingle_overlap_rule (day : Int) (h m : Nat) (e : CalEvent)
    (events : List CalEvent)
    (hh : h ≤ 23) (hm : m ≤ 59) (hv : h < 23 ∨ m = 0) :
    (getTaipeiDay e.start = day →
      (conflictsWithSlot day h m e = true ↔
        (slotStartMin day h m < e.stop ∧
          slotStartMin day h m + 60 > e.start))) ∧
    ((e.stop = slotStartMin day h m ∨
        e.start = slotStartMin day h m + 60) →
      conflictsWithSlot day h m e = false) ∧
    ((checkSingleTimeSlotAvailability events h m day).available = true ↔
      (checkSingleTimeSlotAvailability events h m day).conflictCount = 0) := by
  have hS := jsTaipeiDateTime_valid day h m hh hm
  have hE := jsTaipeiDateTime_end day h m hh hm hv
  refine ⟨?_, ?_, ?_⟩
  · intro hd
    unfold conflictsWithSlot
    rw [hS, hE]
    simp [jsLt, jsGt, hd]
  · intro hb
    unfold conflictsWithSlot
    rw [hS, hE]
    rcases hb with hb | hb <;> simp [jsLt, jsGt, hb]
  · unfold checkSingleTimeSlotAvailability
    simp

/-- Witness for checkSingle_overlap_rule: Scenario C, slot 10:00 with
a conflicting event 09:30-10:30 on the same Taipei day 0. -/
theorem checkSingle_overlap_rule_witness :
    ((10 : Nat) ≤ 23 ∧ (0 : Nat) ≤ 59 ∧ ((10 : Nat) < 23 ∨ (0 : Nat) = 0)) ∧
    ((getTaipeiDay (90 : Int) = 0 →
      (conflictsWithSlot 0 10 0 ⟨[], 90, 150⟩ = true ↔
        (slotStartMin 0 10 0 < 150 ∧ slotStartMin 0 10 0 + 60 > 90))) ∧
    (((150 : Int) = slotStartMin 0 10 0 ∨ (90 : Int) = slotStartMin 0 10 0 + 60) →
      conflictsWithSlot 0 10 0 ⟨[], 90, 150⟩ = false) ∧
    ((checkSingleTimeSlotAvailability [⟨[], 90, 150⟩] 10 0 0).available = true ↔
      (checkSingleTimeSlotAvailability [⟨[], 90, 150⟩] 10 0 0).conflictCount = 0)) :=
  ⟨by decide,
    checkSingle_overlap_rule 0 10 0 ⟨[], 90, 150⟩ [⟨[], 90, 150⟩]
      (by decide) (by decide) (Or.inl (by decide))⟩

/-- C1 counterexample: for slot 23:30 the constructed end string is
"T24:30:00+08:00", an Invalid Date, so an event fully overlapping the
slot on the same Taipei day is not counted and the slot is reported
available, although the half-open overlap formula of the claim holds
for it. -/
theorem checkSingle_overlap_rule_cex :
    getTaipeiDay (930 : Int) = 0 ∧
    slotStartMin 0 23 30 < (990 : Int) ∧
    slotStartMin 0 23 30 + 60 > (930 : Int) ∧
    conflictsWithSlot 0 23 30 ⟨[], 930, 990⟩ = false ∧
    (checkSingleTimeSlotAvailability [⟨[], 930, 990⟩] 23 30 0).available = true ∧
    (checkSingleTimeSlotAvailability [⟨[], 930, 990⟩] 23 30 0).conflictCount = 0 := by
  decide

/-- C10: an event whose Taipei start date differs from the query date
is never counted as a conflict, and removing it from the event list
leaves the availability record of every slot of the query date
unchanged; in particular an event starting on an earlier day and
extending past midnight into the query date never makes a slot
unavailable. -/
theorem checkSingle_ignores_other_days (day : Int) (h m : Nat)
    (e : CalEvent) (events : List CalEvent)
    (hd : getTaipeiDay e.start ≠ day) :
    conflictsWithSlot day h m e = false ∧
    checkSingleTimeSlotAvailability (e :: events) h m day
      = checkSingleTimeSlotAvailability events h m day ∧
    checkSingleTimeSlotAvailabilityFromEvents (e :: events) h m day
      = checkSingleTimeSlotAvailabilityFromEvents events h m day := by
  have hc : conflictsWithSlot day h m e = false := by
    unfold conflictsWithSlot
    simp [hd]
  refine ⟨hc, ?_, ?_⟩ <;>
    simp [checkSingleTimeSlotAvailabilityFromEvents,
      checkSingleTimeSlotAvailability, hc]

/-- Witness for checkSingle_ignores_other_days: an event from Taipei
day 0 (23:00) running past midnight to day 1 (01:00) does not affect
slots of day 1. -/
theorem checkSingle_ignores_other_days_witness :
    getTaipeiDay (900 : Int) ≠ (1 : Int) ∧
    (conflictsWithSlot 1 8 0 ⟨[], 900, 1020⟩ = false ∧
    checkSingleTimeSlotAvailability [⟨[], 900, 1020⟩] 8 0 1
      = checkSingleTimeSlotAvailability [] 8 0 1 ∧
    checkSingleTimeSlotAvailabilityFromEvents [⟨[], 900, 1020⟩] 8 0 1
      = checkSingleTimeSlotAvailabilityFromEvents [] 8 0 1) :=
  ⟨by decide, checkSingle_ignores_other_days 1 8 0 ⟨[], 900, 1020⟩ [] (by decide)⟩

theorem mem_insertTime_self (l : List (Nat × Nat)) (t : Nat × Nat) :
    t ∈ insertTime l t := by
  unfold insertTime
  split <;> simp_all

theorem mem_insertTime_of_mem (l : List (Nat × Nat)) (t x : Nat × Nat)
    (h : x ∈ l) : x ∈ insertTime l t := by
  unfold insertTime
  split <;> simp_all

theorem mem_foldl_insertTime_acc (f : Nat × Nat → Nat × Nat) :
    ∀ (l acc : List (Nat × Nat)) (x : Nat × Nat), x ∈ acc →
      x ∈ l.foldl (fun a p => insertTime a (f p)) acc := by
  intro l
  induction l with
  | nil => intro acc x h; simpa using h
  | cons p t ih =>
    intro acc x h
    exact ih _ _ (mem_insertTime_of_mem _ _ _ h)

theorem mem_foldl_insertTime (f : Nat × Nat → Nat × Nat) :
    ∀ (l acc : List (Nat × Nat)) (p : Nat × Nat), p ∈ l →
      f p ∈ l.foldl (fun a q => insertTime a (f q)) acc := by
  intro l
  induction l with
  | nil => intro acc p h; simp at h
  | cons q t ih =>
    intro acc p h
    rcases List.mem_cons.mp h with h | h
    · subst h
      exact mem_foldl_insertTime_acc f t _ _ (mem_insertTime_self _ _)
    · exact ih _ _ h

/-- C4 (amended): the 12-hour correction is driven by the 下午 marker
only: every raw parsed (hour, minute) with hour below 12 lands in the
found times as (hour + 12, minute) when the title contains 下午, and
as (0, minute) when the hour is 12 and the title contains 上午; the
title 下午2:00 yields exactly the slot 14:00 with period afternoon.
The 晚上 marker triggers no correction. -/
theorem extract_correction_rule (title : List Char) (h m : Nat)
    (hmem : (h, m) ∈ rawTimeMatches title) :
    (containsSub title pmMarker = true → h < 12 →
      (h + 12, m) ∈ foundTimesOf title) ∧
    (containsSub title amMarker = true → h = 12 →
      (0, m) ∈ foundTimesOf title) ∧
    extractTimeSlotsFromTitle titleScenarioA none
      = [{ time := (14, 0), period := Period.afternoon }] := by
  refine ⟨?_, ?_, by decide⟩
  · intro hc hlt
    have hcor : correctHour title h = h + 12 := by
      unfold correctHour
      simp [hc, hlt]
    have := mem_foldl_insertTime
      (fun p => (correctHour title p.1, p.2)) (rawTimeMatches title) [] _ hmem
    simpa [foundTimesOf, hcor] using this
  · intro hc h12
    have hcor : correctHour title h = 0 := by
      unfold correctHour
      simp [hc, h12]
    have := mem_foldl_insertTime
      (fun p => (correctHour title p.1, p.2)) (rawTimeMatches title) [] _ hmem
    simpa [foundTimesOf, hcor] using this

/-- Witness for extract_correction_rule at the Scenario A title, and
at a title whose marker and hour are separated by an ideographic
space, which the source regex class backslash-s skips. -/
theorem extract_correction_rule_witness :
    ((2, 0) ∈ rawTimeMatches titleScenarioA) ∧
    (containsSub titleScenarioA pmMarker = true → (2 : Nat) < 12 →
      (14, 0) ∈ foundTimesOf titleScenarioA) ∧
    extractTimeSlotsFromTitle titleScenarioA none
      = [{ time := (14, 0), period := Period.afternoon }] ∧
    ((2, 0) ∈ rawTimeMatches titleIdeographic) ∧
    (containsSub titleIdeographic pmMarker = true → (2 : Nat) < 12 →
      (14, 0) ∈ foundTimesOf titleIdeographic) :=
  ⟨by decide,
    fun hc hlt => by
      simpa using (extract_correction_rule titleScenarioA 2 0 (by decide)).1 hc hlt,
    (extract_correction_rule titleScenarioA 2 0 (by decide)).2.2,
    by decide,
    fun hc hlt => by
      simpa using
        (extract_correction_rule titleIdeographic 2 0 (by decide)).1 hc hlt⟩

/-- C4 counterexample: the title 晚上8:00 contains the evening marker
and the parsed hour 8 is below 12, yet no 12 is added: the extractor
returns 08:00 (classified as morning), not 20:00. -/
theorem extract_correction_rule_cex :
    containsSub titleEvening eveMarker = true ∧
    (8, 0) ∈ rawTimeMatches titleEvening ∧
    extractTimeSlotsFromTitle titleEvening none
      = [{ time := (8, 0), period := Period.morning }] ∧
    ¬ (20, 0) ∈ foundTimesOf titleEvening := by
  decide

/-- C8: the extractor is total; when no time pattern matches the
title, the fallback is a single slot at the event start time
hour and minute, and no slot at all when no start time is given. -/
theorem extract_fallback_rule (title : List Char) (es : Int)
    (hraw : rawTimeMatches title = []) :
    extractTimeSlotsFromTitle title (some es)
      = [{ time := (taipeiHourOf es, taipeiMinOf es)
           period := classifyPeriod (taipeiHourOf es) }] ∧
    extractTimeSlotsFromTitle title none = [] := by
  have hfound : foundTimesOf title = [] := by
    unfold foundTimesOf
    rw [hraw]
    rfl
  constructor <;> simp [extractTimeSlotsFromTitle, hfound]

/-- Witness for extract_fallback_rule: Scenario B, a pattern-free
title with event start 09:15 Taipei yields the single slot 09:15 with
period morning. -/
theorem extract_fallback_rule_witness :
    extractTimeSlotsFromTitle titleNoTime (some 75)
      = [{ time := (9, 15), period := Period.morning }] ∧
    extractTimeSlotsFromTitle titleNoTime none = [] :=
  extract_fallback_rule titleNoTime 75 (by decide)

theorem paginateLoop_count_le (k : Nat) :
    ∀ (stream : Nat → Option CalendarPage) (pc : Nat) (acc : List CalEvent),
      21 ≤ pc + k → (paginateLoop stream pc acc).2 ≤ max (pc + 1) 21 := by
  induction k with
  | zero =>
    intro stream pc acc hk
    rw [paginateLoop]
    rcases stream (pc + 1) with _ | page
    · simp
    · have : pc + 1 > 20 := by omega
      simp [this]
  | succ k ih =>
    intro stream pc acc hk
    rw [paginateLoop]
    rcases stream (pc + 1) with _ | page
    · simp
    · by_cases hcap : pc + 1 > 20
      · simp [hcap]
      · rcases htok : page.nextPageToken with _ | tok
        · simp [hcap, htok]
        · have hrec := ih stream (pc + 1) (acc ++ page.items) (by omega)
          simp only [hcap, htok, if_false, ite_false]
          simp [hcap]
          omega

/-- C5 (amended): the pagination loop always halts after at most 21
page fetches, whatever the response stream does; the guard pageCount >
20 is tested only after a fetch, so a stream whose next-page token
never empties sees 21 fetches, not 20. -/
theorem executePaginatedQuery_fetch_bound
    (stream : Nat → Option CalendarPage) :
    (executePaginatedQuery stream).2 ≤ 21 := by
  have := paginateLoop_count_le 21 stream 0 [] (by omega)
  simpa [executePaginatedQuery] using this

/-- C5 counterexample: with pages that always carry a next-page token,
the loop performs exactly 21 page fetches, exceeding the 20 claimed. -/
theorem executePaginatedQuery_fetch_bound_cex :
    (executePaginatedQuery (fun _ => some { items := [], nextPageToken := some 0 })).2
      = 21 ∧ ¬ (executePaginatedQuery
        (fun _ => some { items := [], nextPageToken := some 0 })).2 ≤ 20 := by
  refine ⟨?_, ?_⟩ <;>
    · rw [executePaginatedQuery]
      simp [paginateLoop]

theorem jsCeilDiv_mul_msPerDay (k : Int) :
    jsCeilDiv (k * msPerDay) msPerDay = k := by
  unfold jsCeilDiv msPerDay
  have h : k * 86400000 + 86400000 - 1 = 86399999 + 86400000 * k := by ring
  rw [h, Int.fdiv_eq_ediv _ (by norm_num),
    Int.add_mul_ediv_left 86399999 k (by norm_num)]
  omega

theorem lookupBucket_pushBucket (m : List (Int × List CalEvent))
    (k d : Int) (e : CalEvent) :
    lookupBucket (pushBucket m k e) d
      = if k = d then lookupBucket m d ++ [e] else lookupBucket m d := by
  induction m with
  | nil => by_cases h : k = d <;> simp [pushBucket, lookupBucket, h]
  | cons kv rest ih =>
    obtain ⟨k1, l1⟩ := kv
    by_cases h1 : k1 = k
    · subst h1
      by_cases h2 : k1 = d <;> simp [pushBucket, lookupBucket, h2]
    · by_cases h2 : k1 = d
      · have h3 : ¬ k = d := by omega
        have h4 : ¬ d = k := by omega
        simp [pushBucket, lookupBucket, h1, h2, h3, h4]
      · simp [pushBucket, lookupBucket, h1, h2, ih]

theorem lookupBucket_bucketStep_fold (lo hi : Int) :
    ∀ (evs : List CalEvent) (m : List (Int × List CalEvent)) (d : Int),
      lookupBucket (evs.foldl (bucketStep lo hi) m) d
        = lookupBucket m d ++
          (if lo ≤ d ∧ d ≤ hi then
            evs.filter (fun ev => decide (getTaipeiDay ev.start = d))
          else []) := by
  intro evs
  induction evs with
  | nil =>
    intro m d
    by_cases hin : lo ≤ d ∧ d ≤ hi <;> simp [hin]
  | cons ev evs ih =>
    intro m d
    simp only [List.foldl_cons]
    rw [ih]
    by_cases hd : getTaipeiDay ev.start = d
    · by_cases hin : lo ≤ d ∧ d ≤ hi
      · have hin2 : lo ≤ getTaipeiDay ev.start ∧ getTaipeiDay ev.start ≤ hi := by
          rw [hd]; exact hin
        simp [bucketStep, hin2, hd, lookupBucket_pushBucket, hin,
          List.filter_cons, List.append_assoc]
      · have hin2 : ¬ (lo ≤ getTaipeiDay ev.start ∧ getTaipeiDay ev.start ≤ hi) := by
          rw [hd]; exact hin
        simp [bucketStep, hin2, hin]
    · by_cases hin2 : lo ≤ getTaipeiDay ev.start ∧ getTaipeiDay ev.start ≤ hi
      · simp [bucketStep, hin2, lookupBucket_pushBucket, hd, List.filter_cons]
      · simp [bucketStep, hin2, hd, List.filter_cons]

theorem lookupBucket_bucketByDate (events : List CalEvent) (lo hi d : Int)
    (h1 : lo ≤ d) (h2 : d ≤ hi) :
    lookupBucket (bucketByDate events lo hi) d
      = events.filter (fun ev => decide (getTaipeiDay ev.start = d)) := by
  unfold bucketByDate
  rw [lookupBucket_bucketStep_fold]
  simp [h1, h2, lookupBucket]

/-- C3 (amended): the batch query rejects with the range error exactly
when the day difference endDate minus startDate exceeds 62, i.e. when
the inclusive span is 64 days or more; a 63-day inclusive range
(difference 62) is accepted. -/
theorem batch_range_check (env : BatchEnv) (s e : List Char) (ds de : Int)
    (hf : isDateFormatCL s = true ∧ isDateFormatCL e = true)
    (hps : jsParseDateUTC s = some ds) (hpe : jsParseDateUTC e = some de)
    (hord : ds ≤ de) :
    ((handleBatchCheckTimeSlotAvailability env s e).1
        = BatchResult.rangeTooLarge ↔ de - ds > maxDays) := by
  unfold handleBatchCheckTimeSlotAvailability
  rw [hf.1, hf.2, hps, hpe]
  simp only [Bool.and_self, if_true]
  rw [if_neg (not_lt.mpr hord), jsCeilDiv_mul_msPerDay]
  by_cases hbig : de - ds > maxDays
  · rw [if_pos hbig]
    simp [hbig]
  · rw [if_neg hbig]
    rcases hcfg : env.calendarsConfigured <;> simp [hcfg, hbig]

/-- Witness for batch_range_check: the 64-day difference query
2025-07-01 to 2025-09-03 is rejected with the range error. -/
theorem batch_range_check_witness :
    (isDateFormatCL julyFirst = true ∧ isDateFormatCL septThird = true) ∧
    jsParseDateUTC julyFirst = some 20270 ∧
    jsParseDateUTC septThird = some 20334 ∧
    (20270 : Int) ≤ 20334 ∧
    ((handleBatchCheckTimeSlotAvailability batchEnvEmpty julyFirst septThird).1
        = BatchResult.rangeTooLarge ↔ (20334 : Int) - 20270 > maxDays) :=
  ⟨⟨by decide, by decide⟩, by decide, by decide, by decide,
    batch_range_check batchEnvEmpty julyFirst septThird 20270 20334
      ⟨by decide, by decide⟩ (by decide) (by decide) (by decide)⟩

/-- C3 counterexample: BatchAvailability from 2025-07-01 to 2025-09-01
is a 63-day inclusive range (day difference 62); Math.ceil of the
millisecond difference over a day is 62, not greater than maxDays, so
the request is not rejected with the range error, contrary to
Scenario E. -/
theorem batch_range_check_cex :
    jsParseDateUTC julyFirst = some 20270 ∧
    jsParseDateUTC septFirst = some 20332 ∧
    jsCeilDiv (((20332 : Int) - 20270) * msPerDay) msPerDay = 62 ∧
    (handleBatchCheckTimeSlotAvailability batchEnvEmpty julyFirst septFirst).1
      ≠ BatchResult.rangeTooLarge := by
  refine ⟨by decide, by decide, ?_, ?_⟩
  · rw [(by norm_num : ((20332 : Int) - 20270) = 62), jsCeilDiv_mul_msPerDay]
  · decide

/-- C7: a valid batch query issues exactly two upstream Calendar Event
Source calls, one for the time-slot calendar and one for the booking
calendar, each over the single business-hours window spanning the
whole range, and the returned events are bucketed by their Taipei
calendar date: for every date of the range, the bucket consulted by
the per-day extraction and matching holds exactly the events whose
Taipei start date is that date. -/
theorem batch_two_fetches (env : BatchEnv) (s e : List Char) (ds de : Int)
    (hf : isDateFormatCL s = true ∧ isDateFormatCL e = true)
    (hps : jsParseDateUTC s = some ds) (hpe : jsParseDateUTC e = some de)
    (hord : ds ≤ de) (hrange : de - ds ≤ maxDays)
    (hcfg : env.calendarsConfigured = true) :
    (handleBatchCheckTimeSlotAvailability env s e).2
      = [⟨CalRole.timeSlots, (getOptimizedQueryRangeBatch ds de).1,
            (getOptimizedQueryRangeBatch ds de).2⟩,
         ⟨CalRole.booking, (getOptimizedQueryRangeBatch ds de).1,
            (getOptimizedQueryRangeBatch ds de).2⟩] ∧
    (∀ d : Int, ds ≤ d → d ≤ de →
      lookupBucket (bucketByDate env.tsEvents ds de) d
        = env.tsEvents.filter (fun ev => decide (getTaipeiDay ev.start = d)) ∧
      lookupBucket (bucketByDate env.bkEvents ds de) d
        = env.bkEvents.filter (fun ev => decide (getTaipeiDay ev.start = d))) := by
  constructor
  · unfold handleBatchCheckTimeSlotAvailability
    rw [hf.1, hf.2, hps, hpe]
    simp only [Bool.and_self, if_true]
    rw [if_neg (not_lt.mpr hord), jsCeilDiv_mul_msPerDay,
      if_neg (by omega : ¬ de - ds > maxDays), if_pos hcfg]
  · intro d hd1 hd2
    exact ⟨lookupBucket_bucketByDate _ _ _ _ hd1 hd2,
      lookupBucket_bucketByDate _ _ _ _ hd1 hd2⟩

/-- Witness for batch_two_fetches: a three-day query with one event in
each calendar. -/
theorem batch_two_fetches_witness :
    ((handleBatchCheckTimeSlotAvailability batchEnvOne julyFirst julyThird).2
      = [⟨CalRole.timeSlots, (getOptimizedQueryRangeBatch 20270 20272).1,
            (getOptimizedQueryRangeBatch 20270 20272).2⟩,
         ⟨CalRole.booking, (getOptimizedQueryRangeBatch 20270 20272).1,
            (getOptimizedQueryRangeBatch 20270 20272).2⟩]) ∧
    lookupBucket (bucketByDate batchEnvOne.tsEvents 20270 20272) 20271
      = batchEnvOne.tsEvents.filter
          (fun ev => decide (getTaipeiDay ev.start = 20271)) ∧
    lookupBucket (bucketByDate batchEnvOne.bkEvents 20270 20272) 20271
      = batchEnvOne.bkEvents.filter
          (fun ev => decide (getTaipeiDay ev.start = 20271)) :=
  ⟨(batch_two_fetches batchEnvOne julyFirst julyThird 20270 20272
      ⟨by decide, by decide⟩ (by decide) (by decide) (by decide) (by decide)
      rfl).1,
    ((batch_two_fetches batchEnvOne julyFirst julyThird 20270 20272
      ⟨by decide, by decide⟩ (by decide) (by decide) (by decide) (by decide)
      rfl).2 20271 (by decide) (by decide)).1,
    ((batch_two_fetches batchEnvOne julyFirst julyThird 20270 20272
      ⟨by decide, by decide⟩ (by decide) (by decide) (by decide) (by decide)
      rfl).2 20271 (by decide) (by decide)).2⟩

/-- C2: when the lock is granted, the booking passes validation and
the backend re-check against the freshly fetched booking-calendar
events reports the slot unavailable, handleSaveBooking returns the
failure result carrying the recheck error code and conflict
details, leaves the booking store untouched, and its trace shows the
fetch strictly between lock acquisition and release — the decision
comes from the fetch performed under the lock, not from any cached
availability result. -/
theorem save_revalidates_under_lock (env : SaveEnv)
    (store : List BookingInput) (b : BookingInput)
    (hlock : env.lockOk = true)
    (hcfg : env.calendarConfigured = true)
    (hval : validateBooking b = none)
    (hunavail : (verifyBackendTimeSlotAvailability true env.fetch true
        (jsParseDateUTC b.date) (parseTimeHM b.time)).available = false) :
    handleSaveBooking env store b =
      { result := SaveResult.slotUnavailable
          (verifyBackendTimeSlotAvailability true env.fetch true
            (jsParseDateUTC b.date) (parseTimeHM b.time)).errorCode
          (verifyBackendTimeSlotAvailability true env.fetch true
            (jsParseDateUTC b.date) (parseTimeHM b.time)).slotStatus
        store := store
        trace := [SaveAction.acquireLock, SaveAction.fetchBookingEvents,
          SaveAction.releaseLock] } := by
  unfold handleSaveBooking
  rw [hlock, hval, hcfg]
  simp [hunavail]

/-- Witness for save_revalidates_under_lock: the 14:00 slot of
2025-07-15 is taken by a 14:00-15:00 event, so the commit is refused
with conflict details and nothing is appended. -/
theorem save_revalidates_under_lock_witness :
    (saveEnvBusy.lockOk = true ∧ saveEnvBusy.calendarConfigured = true ∧
      validateBooking bookingValid = none ∧
      (verifyBackendTimeSlotAvailability true saveEnvBusy.fetch true
        (jsParseDateUTC bookingValid.date)
        (parseTimeHM bookingValid.time)).available = false) ∧
    handleSaveBooking saveEnvBusy [] bookingValid =
      { result := SaveResult.slotUnavailable
          (verifyBackendTimeSlotAvailability true saveEnvBusy.fetch true
            (jsParseDateUTC bookingValid.date)
            (parseTimeHM bookingValid.time)).errorCode
          (verifyBackendTimeSlotAvailability true saveEnvBusy.fetch true
            (jsParseDateUTC bookingValid.date)
            (parseTimeHM bookingValid.time)).slotStatus
        store := []
        trace := [SaveAction.acquireLock, SaveAction.fetchBookingEvents,
          SaveAction.releaseLock] } :=
  ⟨⟨rfl, rfl, by decide, by decide⟩,
    save_revalidates_under_lock saveEnvBusy [] bookingValid rfl rfl
      (by decide) (by decide)⟩

/-- C6 (amended): a submission missing a required field or with a
malformed date or time is rejected with a thrown validation error
before the availability re-check and before any write — but only
after the document lock has been acquired; the trace is exactly
acquire-then-release, with no fetch and no append, and the store is
unchanged. -/
theorem save_validation_rejects_early (env : SaveEnv)
    (store : List BookingInput) (b : BookingInput) (err : ValidationError)
    (hlock : env.lockOk = true)
    (hval : validateBooking b = some err) :
    handleSaveBooking env store b =
      { result := SaveResult.validationThrown err, store := store
        trace := [SaveAction.acquireLock, SaveAction.releaseLock] } := by
  unfold handleSaveBooking
  rw [hlock, hval]
  simp

/-- Witness for save_validation_rejects_early at the missing-phone
booking. -/
theorem save_validation_rejects_early_witness :
    (saveEnvFree.lockOk = true ∧
      validateBooking bookingMissingPhone
        = some ValidationError.missingPhone) ∧
    handleSaveBooking saveEnvFree [] bookingMissingPhone =
      { result := SaveResult.validationThrown ValidationError.missingPhone
        store := []
        trace := [SaveAction.acquireLock, SaveAction.releaseLock] } :=
  ⟨⟨rfl, by decide⟩,
    save_validation_rejects_early saveEnvFree [] bookingMissingPhone
      ValidationError.missingPhone rfl (by decide)⟩

/-- C6 counterexample: for a submission with a missing phone the code
does attempt (and acquire) the document lock before validating: the
trace of the run contains the lock acquisition, contrary to the claim
that no lock acquisition is attempted on the validation-failure
path. -/
theorem save_validation_rejects_early_cex :
    validateBooking bookingMissingPhone = some ValidationError.missingPhone ∧
    SaveAction.acquireLock
      ∈ (handleSaveBooking saveEnvFree [] bookingMissingPhone).trace ∧
    (handleSaveBooking saveEnvFree [] bookingMissingPhone).trace
      = [SaveAction.acquireLock, SaveAction.releaseLock] := by
  decide

/-- C9: the availability check is fail-closed: when the event fetch
throws, every slot record is marked unavailable with conflictCount
-1; and the backend re-validation reports available only on its
success path — whenever it returns available, the parameters were
present, the calendar configured and the fetch succeeded. -/
theorem availability_fail_closed (msg : Unit) (slots : List (Nat × Nat))
    (day? : Option Int) (t : Nat × Nat) (st : SlotStatus)
    (calCfg hasParams : Bool) (fetch : Except Unit (List CalEvent)) :
    ((t, st) ∈ checkTimeSlotsAvailability (Except.error msg) slots day? →
      st.available = false ∧ st.conflictCount = -1) ∧
    ((verifyBackendTimeSlotAvailability calCfg fetch hasParams day? t).available
        = true →
      hasParams = true ∧ calCfg = true ∧
        ∃ events, fetch = Except.ok events) := by
  constructor
  · intro hmem
    unfold checkTimeSlotsAvailability at hmem
    simp only [List.mem_map] at hmem
    obtain ⟨t0, _, heq⟩ := hmem
    cases heq
    exact ⟨rfl, rfl⟩
  · intro hav
    cases hasParams with
    | false => simp [verifyBackendTimeSlotAvailability] at hav
    | true =>
      cases calCfg with
      | false => simp [verifyBackendTimeSlotAvailability] at hav
      | true =>
        refine ⟨rfl, rfl, ?_⟩
        cases fetch with
        | ok events => exact ⟨events, rfl⟩
        | error msg0 =>
          simp [verifyBackendTimeSlotAvailability,
            checkTimeSlotsAvailability, lookupSlot] at hav

/-- Witness for availability_fail_closed: a failed fetch marks the
14:00 slot unavailable with count -1, and a successful empty fetch is
the only way the witness re-validation reports available. -/
theorem availability_fail_closed_witness :
    ((({ available := false, conflictCount := -1, conflictingEvents := [] }
        : SlotStatus).available = false ∧
      ({ available := false, conflictCount := -1, conflictingEvents := [] }
        : SlotStatus).conflictCount = -1)) ∧
    (true = true ∧ true = true ∧
      ∃ events, (Except.ok [] : Except Unit (List CalEvent))
        = Except.ok events) :=
  ⟨(availability_fail_closed () [(14, 0)] (some 20284) (14, 0)
      { available := false, conflictCount := -1, conflictingEvents := [] }
      true true (Except.ok [])).1 (by decide),
    (availability_fail_closed () [(14, 0)] (some 20284) (14, 0)
      { available := false, conflictCount := -1, conflictingEvents := [] }
      true true (Except.ok [])).2 (by decide)⟩
